import Mathlib

/-!
# Verification of `LightWave2D/detector.py`

A shallow embedding of the detector module of LightWave2D: the two detector
classes `CircularDetector` and `PointDetector`, their construction
(`__post_init__` / `construct_object`), their sampling operation
(`update_data`) and the data aggregation performed by `plot_data`.

Field values are embedded as integers (the module is agnostic in the value
type: it only slices, takes absolute values and sums), grid indices as
naturals, and numpy arrays as nested lists.  The numpy operations used by the
source (`argwhere` row-major enumeration, boolean-mask fancy indexing,
`zeros`, elementwise `abs`, `sum(axis=0)`) and the OpenCV ellipse rasterizer
are given explicit executable models below, each documented at its
definition.
-/

set_option maxRecDepth 10000

namespace LightWave2D

/-- Errors surfaced by the embedded code: the out-of-bounds error raised by
the `Grid` collaborator, and the Python `AttributeError` raised when a
dataclass field declared with `init=False` is read before being assigned. -/
inductive PyError where
  | outOfBounds (msg : String)
  | attributeError (msg : String)
deriving Repr, DecidableEq

/-- Modelled from the spec: `ResolvedPosition` (§3) — the value returned by
`Grid.get_coordinate`, holding the physical coordinate pair and the resolved
integer index pair.  `LightWave2D/grid.py` is not part of this fragment. -/
structure ResolvedPosition where
  x : Int
  y : Int
  x_index : Nat
  y_index : Nat
deriving Repr, DecidableEq

/-- Decidable equality of `Except` results, used to evaluate the embedded
operations at concrete inputs. -/
instance {ε α : Type} [DecidableEq ε] [DecidableEq α] : DecidableEq (Except ε α) := fun a b =>
  match a, b with
  | .error e, .error f =>
    if h : e = f then .isTrue (by rw [h]) else .isFalse (fun hh => h (Except.error.inj hh))
  | .error _, .ok _ => .isFalse (fun hh => Except.noConfusion hh)
  | .ok _, .error _ => .isFalse (fun hh => Except.noConfusion hh)
  | .ok x, .ok y =>
    if h : x = y then .isTrue (by rw [h]) else .isFalse (fun hh => h (Except.ok.inj hh))

/-- Modelled from the spec: the `Grid` collaborator (§3, §6) —
`LightWave2D/grid.py` is not part of this fragment.  It provides the grid
shape `(rows, cols)`, the number of time steps `n_steps`, the `time_stamp`
sequence, and a fallible coordinate-resolution function `get_coordinate`
mapping physical coordinates (embedded as integers) to a `ResolvedPosition`
or an out-of-bounds error.  Each concrete grid instance supplies its own
resolution function. -/
structure Grid where
  rows : Nat
  cols : Nat
  n_steps : Nat
  time_stamp : List Int
  get_coordinate : Int → Int → Except PyError ResolvedPosition

/-- Column indices of the `true` entries of one raster row, starting the
column count at `k`.  With `k = 0` this is the order in which
`numpy.argwhere` enumerates one row. -/
def rowTrueIdx : List Bool → Nat → List Nat
  | [], _ => []
  | b :: bs, k => (if b then [k] else []) ++ rowTrueIdx bs (k + 1)

/-- Row-major enumeration of the `true` cells of a boolean raster, starting
the row count at `k`. -/
def argwhereAux : List (List Bool) → Nat → List (Nat × Nat)
  | [], _ => []
  | row :: rest, k => (rowTrueIdx row 0).map (fun c => (k, c)) ++ argwhereAux rest (k + 1)

/-- Model of `numpy.argwhere` on a 2D boolean raster: the index pairs of the
`true` cells in row-major (C) order.  The source stores the transpose
(`.T`, a `2 × M` array); the `m`-th member coordinate of the source,
`(arr[0, m], arr[1, m])`, is the `m`-th pair of this list. -/
def argwhere (m : List (List Bool)) : List (Nat × Nat) :=
  argwhereAux m 0

/-- Values of one data row at the `true` positions of one mask row, in
order: one row of numpy boolean-mask fancy indexing. -/
def rowSelect : List Bool → List Int → List Int
  | b :: bs, v :: vs => (if b then [v] else []) ++ rowSelect bs vs
  | _, _ => []

/-- Model of numpy boolean-mask fancy indexing `snap[mask]` on a 2D array:
the values at the `true` cells of the mask in row-major (C) order. -/
def maskSelect : List (List Bool) → List (List Int) → List Int
  | mrow :: mrest, srow :: srest => rowSelect mrow srow ++ maskSelect mrest srest
  | _, _ => []

/-- Number of `true` entries of one raster row. -/
def countTrueRow : List Bool → Nat
  | [] => 0
  | b :: bs => (if b then 1 else 0) + countTrueRow bs

/-- Number of `true` cells of a boolean raster. -/
def countTrue (m : List (List Bool)) : Nat :=
  (m.map countTrueRow).sum

/-- Python `abs` on the embedded (integer) field values. -/
def pyAbs (v : Int) : Int :=
  if v < 0 then -v else v

/-- Python list indexing with a possibly negative index (`data[-1]` is the
last entry), with a default for the out-of-range case, which no claim
exercises. -/
def pyIdx (l : List α) (i : Int) (dflt : α) : α :=
  if 0 ≤ i then l.getD i.toNat dflt else l.getD (l.length - (-i).toNat) dflt

/-- numpy `sum(axis=0)` over a list of equal-length rows: the elementwise
sum.  On a single row it is the identity; the source never sums an empty
selection. -/
def sumAxis0 : List (List Int) → List Int
  | [] => []
  | [r] => r
  | r :: rest => List.zipWith (· + ·) r (sumAxis0 rest)

/-- Integer membership test of the axis-aligned ellipse drawn by
`cv2.ellipse`.  OpenCV points are `(x, y) = (column, row)`: `center.1` is
the column of the center, `center.2` its row, `axes.1` the semi-axis along
the columns and `axes.2` the semi-axis along the rows.  The cell `(r, c)`
is inside iff `((c - center.1)/axes.1)^2 + ((r - center.2)/axes.2)^2 ≤ 1`,
cleared of denominators. -/
def insideEllipse (center axes : Int × Int) (r c : Int) : Bool :=
  decide (axes.2 ^ 2 * (c - center.1) ^ 2 + axes.1 ^ 2 * (r - center.2) ^ 2
    ≤ axes.1 ^ 2 * axes.2 ^ 2)

/-- One cell of the rasterized ellipse OUTLINE.  The source calls
`cv2.ellipse(img, center, axes, angle=0, startAngle=0, endAngle=360, color)`
with no `thickness` argument; OpenCV's default `thickness=1` draws the
boundary curve of the ellipse, NOT a filled ellipse (filling requires
`thickness=-1`).  The drawn cell set is modelled here as an idealized
boundary rasterization: the inner boundary of the integer filled ellipse —
cells inside the ellipse having a 4-neighbour outside it.  OpenCV's actual
rendering approximates the arc by a chord polyline (`ellipse2Poly`, 30°
steps below radius 10, 12° below 22) painted with fixed-point
nearest-pixel line drawing; its exact cell set therefore differs from this
idealization by about one cell along the staircase — it can paint cells
just outside the region and skip inner-staircase cells.  Accordingly, the
theorems below assert about the mask's contents only features robust to a
one-cell discrepancy: the raster's shape and clipping, that strict-interior
cells (all four neighbours inside the region) are unpainted, membership
within one cell of the region, and perimeter-scale count bounds with ample
margin — never the exact drawn cell set. -/
def onOutline (center axes : Int × Int) (r c : Int) : Bool :=
  insideEllipse center axes r c &&
    (!insideEllipse center axes (r + 1) c || !insideEllipse center axes (r - 1) c ||
     !insideEllipse center axes r (c + 1) || !insideEllipse center axes r (c - 1))

/-- Model of `cv2.ellipse` called on a zero raster of shape `(rows, cols)`
with `angle=0`, `startAngle=0`, `endAngle=360` and default thickness,
followed by `astype(bool)`: the outline cells (see `onOutline` and the
modelling caveat there), clipped to the raster bounds. -/
def cv2_ellipse (rows cols : Nat) (center axes : Int × Int) : List (List Bool) :=
  (List.range rows).map fun (r : Nat) => (List.range cols).map fun (c : Nat) =>
    onOutline center axes (r : Int) (c : Int)

/-- The spec's elliptical-region membership, written from the spec's words
for comparison with the raster the code builds: cell `(r, c)` lies inside
the axis-aligned elliptical region with center row `cr`, center column
`cc`, column semi-axis `a` and row semi-axis `b`, i.e.
`((c - cc)/a)^2 + ((r - cr)/b)^2 ≤ 1`, cleared of denominators. -/
def InRegion (cr cc a b r c : Int) : Prop :=
  b ^ 2 * (c - cc) ^ 2 + a ^ 2 * (r - cr) ^ 2 ≤ a ^ 2 * b ^ 2

/-- Elliptical-region membership up to one cell of rasterization slack,
the claim's own tolerance: the cell, with each index offset shrunk by one
toward the center, lies inside the region.  This is the membership robust
to any thickness-1 rendering: OpenCV paints nearest pixels of chords of
the ellipse, and a chord point lies inside the convex region while the
rounding moves each coordinate by at most half a cell. -/
def InRegionSlack (cr cc a b r c : Int) : Prop :=
  b ^ 2 * max (|c - cc| - 1) 0 ^ 2 + a ^ 2 * max (|r - cr| - 1) 0 ^ 2 ≤ a ^ 2 * b ^ 2

/-- The argument of `plot_data`: a Python `int` index or a `slice(a, b)`. -/
inductive Slc where
  | idx (i : Int)
  | slice (a b : Nat)
deriving Repr, DecidableEq

/-- `detector.py` lines 20–33: the `CircularDetector` dataclass.  `data` is
declared `field(init=False)` and is never assigned during construction, so
it is absent until the first `update_data` call: we embed it as an
`Option`, `none` meaning "attribute not set".  `object_coordinate_index`
holds the member coordinates (see `argwhere`), and `angle_args` the exact
integer argument pairs the source passes to `numpy.arctan2` to build
`angle_list` (the real-valued arctangent itself is kept symbolic: see
`CircularDetector.angle_list`). -/
structure CircularDetector where
  grid : Grid
  position : ResolvedPosition
  radius : Int
  object_idx : List (List Bool)
  object_coordinate_index : List (Nat × Nat)
  angle_args : List (Int × Int)
  data : Option (List (List Int))

/-- `detector.py` lines 34–64: `CircularDetector.__post_init__` followed by
`construct_object`.  `position` is resolved by the grid (line 35), the
radius is resolved by the grid (line 43), the raster is drawn by
`cv2.ellipse` with `center=(position.y_index, position.x_index)` and
`axes=(radius_indexes.x_index, radius_indexes.y_index)` (lines 45–57), the
member coordinates are `argwhere(object_idx == 1)` (line 59), and the
arctangent arguments are `(row - position.x_index, col - position.y_index)`
(lines 61–64).  Exceptions raised by `get_coordinate` propagate: there is
no `try`/`except` in the source. -/
def CircularDetector.construct (grid : Grid) (position : Int × Int) (radius : Int) :
    Except PyError CircularDetector :=
  match grid.get_coordinate position.1 position.2 with
  | .error e => .error e
  | .ok pos =>
    match grid.get_coordinate radius radius with
    | .error e => .error e
    | .ok radius_indexes =>
      let object_idx := cv2_ellipse grid.rows grid.cols
        ((pos.y_index : Int), (pos.x_index : Int))
        ((radius_indexes.x_index : Int), (radius_indexes.y_index : Int))
      let coords := argwhere object_idx
      .ok { grid := grid
            position := pos
            radius := radius
            object_idx := object_idx
            object_coordinate_index := coords
            angle_args := coords.map fun q =>
              ((q.1 : Int) - (pos.x_index : Int), (q.2 : Int) - (pos.y_index : Int))
            data := none }

/-- `detector.py` lines 61–64: `angle_list`, the elementwise
`numpy.arctan2` of the stored argument pairs.  The real arctangent is not
computable, so the interpretation `f` of `arctan2` is a parameter; every
theorem about angles holds for all interpretations, in particular for the
real `atan2`. -/
def CircularDetector.angle_list (d : CircularDetector) (f : Int → Int → A) : List A :=
  d.angle_args.map fun q => f q.1 q.2

/-- `detector.py` lines 66–67: `CircularDetector.update_data` sets
`self.data = field[:, self.object_idx != 0]` — for each time entry, the
field values at the mask's `true` cells in row-major order. -/
def CircularDetector.update_data (d : CircularDetector) (field : List (List (List Int))) :
    CircularDetector :=
  { d with data := some (field.map fun snap => maskSelect d.object_idx snap) }

/-- `detector.py` lines 69–77: the aggregate that `CircularDetector.plot_data`
computes and passes to the polar scatter as `y`, namely
`abs(self.data[slc]).sum(axis=0)`.  Reading `self.data` before any
`update_data` call raises `AttributeError` (the field is `init=False` in a
slotted dataclass).  With an integer index `slc` the indexing `data[slc]`
yields one row of length `M` and `sum(axis=0)` then sums over the member
cells, yielding a scalar (`Sum.inl`); with a slice it yields a
`(T', M)` block and `sum(axis=0)` sums over time, yielding an `M`-vector
(`Sum.inr`). -/
def CircularDetector.plot_data_values (d : CircularDetector) (slc : Slc) :
    Except PyError (Sum Int (List Int)) :=
  match d.data with
  | none => .error (.attributeError "data")
  | some dat =>
    match slc with
    | .idx i => .ok (.inl ((pyIdx dat i []).map pyAbs).sum)
    | .slice a b => .ok (.inr (sumAxis0 (((dat.drop a).take (b - a)).map fun row => row.map pyAbs)))

/-- `detector.py` lines 98–110: the `PointDetector` dataclass. -/
structure PointDetector where
  grid : Grid
  position : ResolvedPosition
  data : List Int

/-- `detector.py` lines 112–121: `PointDetector.__post_init__` resolves the
position through the grid (exceptions propagate) and initializes
`self.data = numpy.zeros(self.grid.n_steps)`. -/
def PointDetector.construct (grid : Grid) (position : Int × Int) :
    Except PyError PointDetector :=
  match grid.get_coordinate position.1 position.2 with
  | .error e => .error e
  | .ok pos => .ok { grid := grid, position := pos, data := List.replicate grid.n_steps 0 }

/-- `detector.py` lines 123–130: `PointDetector.update_data` sets
`self.data = field[:, self.position.x_index, self.position.y_index]`.  The
stored index is within the grid per the Grid invariant (§3), so the
defaults of the total lookups are never taken under the claims'
hypotheses. -/
def PointDetector.update_data (d : PointDetector) (field : List (List (List Int))) :
    PointDetector :=
  { d with data := field.map fun snap =>
      (((snap[d.position.x_index]?).getD [])[d.position.y_index]?).getD 0 }

/-- `detector.py` lines 132–142: the pair of sequences `PointDetector.plot_data`
hands to the line plot: the grid's time stamps and the stored data.  A pure
accessor: it reads state and returns a value. -/
def PointDetector.plot_data_values (d : PointDetector) : List Int × List Int :=
  (d.grid.time_stamp, d.data)

/-! ### Concrete instances used by counterexamples and witnesses -/

/-- An 11 × 11 grid whose resolution function resolves an in-range integer
coordinate to itself and reports out-of-bounds otherwise. -/
def gridA : Grid where
  rows := 11
  cols := 11
  n_steps := 4
  time_stamp := [0, 1, 2, 3]
  get_coordinate := fun x y =>
    if 0 ≤ x ∧ x < 11 ∧ 0 ≤ y ∧ y < 11 then .ok ⟨x, y, x.toNat, y.toNat⟩
    else .error (.outOfBounds "coordinate outside grid")

/-- A 23 × 23 grid of the same kind, large enough to hold a radius-5
detector away from the border. -/
def gridB : Grid where
  rows := 23
  cols := 23
  n_steps := 3
  time_stamp := [0, 1, 2]
  get_coordinate := fun x y =>
    if 0 ≤ x ∧ x < 23 ∧ 0 ≤ y ∧ y < 23 then .ok ⟨x, y, x.toNat, y.toNat⟩
    else .error (.outOfBounds "coordinate outside grid")

/-- A grid whose resolution function always reports out-of-bounds. -/
def gridErr : Grid where
  rows := 11
  cols := 11
  n_steps := 4
  time_stamp := []
  get_coordinate := fun _ _ => .error (.outOfBounds "coordinate outside grid")

/-- Fallback value used to project a successful construction out of
`Except`. -/
def fallbackCircular : CircularDetector :=
  { grid := gridA, position := ⟨0, 0, 0, 0⟩, radius := 0, object_idx := [],
    object_coordinate_index := [], angle_args := [], data := none }

/-- A concrete circular detector on `gridA`: center `(5, 5)`, radius 3. -/
def dA : CircularDetector :=
  (CircularDetector.construct gridA (5, 5) 3).toOption.getD fallbackCircular

/-- A concrete circular detector on `gridB`: center `(11, 11)`, radius 5. -/
def dB : CircularDetector :=
  (CircularDetector.construct gridB (11, 11) 5).toOption.getD fallbackCircular

/-- A 45 × 45 grid of the same kind, large enough to hold a radius-20
detector away from the border. -/
def gridC : Grid where
  rows := 45
  cols := 45
  n_steps := 2
  time_stamp := [0, 1]
  get_coordinate := fun x y =>
    if 0 ≤ x ∧ x < 45 ∧ 0 ≤ y ∧ y < 45 then .ok ⟨x, y, x.toNat, y.toNat⟩
    else .error (.outOfBounds "coordinate outside grid")

/-- A concrete circular detector on `gridC`: center `(22, 22)`, radius 20. -/
def dC : CircularDetector :=
  (CircularDetector.construct gridC (22, 22) 20).toOption.getD fallbackCircular

/-- A concrete point detector on `gridA` at `(2, 3)`. -/
def pA : PointDetector :=
  (PointDetector.construct gridA (2, 3)).toOption.getD
    { grid := gridA, position := ⟨0, 0, 0, 0⟩, data := [] }

/-- One all-ones field snapshot of the shape of `gridA`. -/
def fieldOnes : List (List (List Int)) :=
  [List.replicate 11 (List.replicate 11 (1 : Int))]

/-! ### Lemmas about the enumeration and selection models -/

theorem rowTrueIdx_shift (bs : List Bool) (k : Nat) :
    rowTrueIdx bs (k + 1) = (rowTrueIdx bs k).map (· + 1) := by
  induction bs generalizing k with
  | nil => rfl
  | cons b bs ih => cases b <;> simp [rowTrueIdx, ih]

theorem rowTrueIdx_length (bs : List Bool) (k : Nat) :
    (rowTrueIdx bs k).length = countTrueRow bs := by
  induction bs generalizing k with
  | nil => rfl
  | cons b bs ih => cases b <;> simp [rowTrueIdx, countTrueRow, ih, Nat.add_comm]

theorem rowSelect_eq (bs : List Bool) (vs : List Int) (h : bs.length = vs.length) :
    rowSelect bs vs = (rowTrueIdx bs 0).map fun c => (vs[c]?).getD 0 := by
  induction bs generalizing vs with
  | nil => cases vs <;> simp [rowSelect, rowTrueIdx]
  | cons b bs ih =>
    cases vs with
    | nil => simp at h
    | cons v vs =>
      have h' : bs.length = vs.length := by simpa using h
      cases b <;>
        simp [rowSelect, rowTrueIdx, rowTrueIdx_shift, List.map_map, Function.comp,
          ih vs h']

theorem rowSelect_length (bs : List Bool) (vs : List Int) (h : bs.length = vs.length) :
    (rowSelect bs vs).length = countTrueRow bs := by
  rw [rowSelect_eq bs vs h, List.length_map, rowTrueIdx_length]

theorem argwhereAux_shift (m : List (List Bool)) (k : Nat) :
    argwhereAux m (k + 1) = (argwhereAux m k).map fun q => (q.1 + 1, q.2) := by
  induction m generalizing k with
  | nil => rfl
  | cons row rest ih =>
    simp [argwhereAux, ih, List.map_map, Function.comp]

theorem maskSelect_eq (m : List (List Bool)) (s : List (List Int))
    (h : List.Forall₂ (fun (r : List Bool) (v : List Int) => r.length = v.length) m s) :
    maskSelect m s = (argwhere m).map fun q => (((s[q.1]?).getD [])[q.2]?).getD 0 := by
  induction h with
  | nil => rfl
  | @cons a b l₁ l₂ hab hrest ih =>
    simp only [maskSelect, argwhere, argwhereAux, List.map_append, List.map_map]
    rw [argwhereAux_shift, List.map_map, rowSelect_eq a b hab, ih]
    simp [Function.comp_def, argwhere]

theorem maskSelect_length (m : List (List Bool)) (s : List (List Int))
    (h : List.Forall₂ (fun (r : List Bool) (v : List Int) => r.length = v.length) m s) :
    (maskSelect m s).length = countTrue m := by
  induction h with
  | nil => rfl
  | @cons a b l₁ l₂ hab hrest ih =>
    simp only [maskSelect, countTrue, List.map_cons, List.sum_cons, List.length_append,
      rowSelect_length a b hab]
    simp only [countTrue] at ih
    omega

theorem mem_rowTrueIdx (bs : List Bool) (k c : Nat) (hc : c ∈ rowTrueIdx bs k) :
    k ≤ c ∧ c - k < bs.length ∧ ((bs[c - k]?).getD false) = true := by
  induction bs generalizing k with
  | nil => simp [rowTrueIdx] at hc
  | cons b bs ih =>
    simp only [rowTrueIdx, List.mem_append] at hc
    rcases hc with hc | hc
    · cases b with
      | false => simp at hc
      | true =>
        simp at hc
        subst hc
        refine ⟨le_refl _, by simp, by simp⟩
    · obtain ⟨h1, h2, h3⟩ := ih (k + 1) hc
      have hck : c - k = (c - (k + 1)) + 1 := by omega
      refine ⟨by omega, by simp [hck]; omega, ?_⟩
      rw [hck, List.getElem?_cons_succ]
      exact h3

theorem mem_argwhereAux (m : List (List Bool)) (k : Nat) (q : Nat × Nat)
    (hq : q ∈ argwhereAux m k) :
    k ≤ q.1 ∧ q.1 - k < m.length ∧ q.2 ∈ rowTrueIdx ((m[q.1 - k]?).getD []) 0 := by
  induction m generalizing k with
  | nil => simp [argwhereAux] at hq
  | cons row rest ih =>
    simp only [argwhereAux, List.mem_append, List.mem_map] at hq
    rcases hq with ⟨c, hc, rfl⟩ | hq
    · exact ⟨le_refl _, by simp, by simpa using hc⟩
    · obtain ⟨h1, h2, h3⟩ := ih (k + 1) hq
      have hqk : q.1 - k = (q.1 - (k + 1)) + 1 := by omega
      refine ⟨by omega, by simp [hqk]; omega, ?_⟩
      rw [hqk, List.getElem?_cons_succ]
      exact h3

theorem argwhere_mem_bounds (m : List (List Bool)) (q : Nat × Nat) (hq : q ∈ argwhere m) :
    q.1 < m.length ∧ q.2 < ((m[q.1]?).getD []).length ∧
      ((((m[q.1]?).getD [])[q.2]?).getD false) = true := by
  obtain ⟨-, h2, h3⟩ := mem_argwhereAux m 0 q hq
  obtain ⟨-, h4, h5⟩ := mem_rowTrueIdx _ 0 q.2 h3
  simp only [Nat.sub_zero] at h2 h3 h4 h5
  exact ⟨h2, h4, h5⟩

/-! ### Lemmas about the rasterized ellipse -/

theorem cv2_ellipse_length (rows cols : Nat) (center axes : Int × Int) :
    (cv2_ellipse rows cols center axes).length = rows := by
  unfold cv2_ellipse
  rw [List.length_map, List.length_range]

theorem cv2_ellipse_row (rows cols : Nat) (center axes : Int × Int) (r : Nat)
    (hr : r < rows) :
    (cv2_ellipse rows cols center axes)[r]? =
      some ((List.range cols).map fun (c : Nat) => onOutline center axes (r : Int) (c : Int)) := by
  unfold cv2_ellipse
  rw [List.getElem?_map, List.getElem?_range hr, Option.map_some']

theorem cv2_ellipse_row_length (rows cols : Nat) (center axes : Int × Int) :
    ∀ row ∈ cv2_ellipse rows cols center axes, row.length = cols := by
  intro row hrow
  simp only [cv2_ellipse, List.mem_map] at hrow
  obtain ⟨r, -, rfl⟩ := hrow
  rw [List.length_map, List.length_range]

theorem cv2_ellipse_cell (rows cols : Nat) (center axes : Int × Int) (r c : Nat)
    (hr : r < rows) (hc : c < cols) :
    (((((cv2_ellipse rows cols center axes)[r]?).getD [])[c]?).getD false) =
      onOutline center axes (r : Int) (c : Int) := by
  rw [cv2_ellipse_row rows cols center axes r hr, Option.getD_some,
    List.getElem?_map, List.getElem?_range hc, Option.map_some', Option.getD_some]

theorem forall₂_length_of_shape {m : List (List Bool)} {s : List (List Int)} {cols : Nat}
    (hlen : m.length = s.length) (hm : ∀ row ∈ m, row.length = cols)
    (hs : ∀ row ∈ s, row.length = cols) :
    List.Forall₂ (fun (r : List Bool) (v : List Int) => r.length = v.length) m s := by
  induction m generalizing s with
  | nil =>
    cases s with
    | nil => exact List.Forall₂.nil
    | cons b t => simp at hlen
  | cons a l ih =>
    cases s with
    | nil => simp at hlen
    | cons b t =>
      refine List.Forall₂.cons ?_ (ih (by simpa using hlen) ?_ ?_)
      · rw [hm a (by simp), hs b (by simp)]
      · exact fun row hr => hm row (by simp [hr])
      · exact fun row hr => hs row (by simp [hr])

/-! ### Inversion of the constructors -/

theorem circular_construct_ok {grid : Grid} {p : Int × Int} {radius : Int}
    {d : CircularDetector} (h : CircularDetector.construct grid p radius = .ok d) :
    ∃ pos ri, grid.get_coordinate p.1 p.2 = .ok pos ∧
      grid.get_coordinate radius radius = .ok ri ∧
      d.grid = grid ∧ d.position = pos ∧ d.radius = radius ∧
      d.object_idx = cv2_ellipse grid.rows grid.cols
        ((pos.y_index : Int), (pos.x_index : Int))
        ((ri.x_index : Int), (ri.y_index : Int)) ∧
      d.object_coordinate_index = argwhere d.object_idx ∧
      d.angle_args = d.object_coordinate_index.map (fun q =>
        ((q.1 : Int) - (pos.x_index : Int), (q.2 : Int) - (pos.y_index : Int))) ∧
      d.data = none := by
  cases h1 : grid.get_coordinate p.1 p.2 with
  | error e => simp [CircularDetector.construct, h1] at h
  | ok pos =>
    cases h2 : grid.get_coordinate radius radius with
    | error e => simp [CircularDetector.construct, h1, h2] at h
    | ok ri =>
      refine ⟨pos, ri, rfl, rfl, ?_⟩
      simp only [CircularDetector.construct, h1, h2, Except.ok.injEq] at h
      subst h
      exact ⟨rfl, rfl, rfl, rfl, rfl, rfl, rfl⟩

theorem point_construct_ok {grid : Grid} {p : Int × Int}
    {d : PointDetector} (h : PointDetector.construct grid p = .ok d) :
    ∃ pos, grid.get_coordinate p.1 p.2 = .ok pos ∧
      d.grid = grid ∧ d.position = pos ∧ d.data = List.replicate grid.n_steps 0 := by
  cases h1 : grid.get_coordinate p.1 p.2 with
  | error e => simp [PointDetector.construct, h1] at h
  | ok pos =>
    refine ⟨pos, rfl, ?_⟩
    simp only [PointDetector.construct, h1, Except.ok.injEq] at h
    subst h
    exact ⟨rfl, rfl, rfl⟩

theorem mem_of_lookup {l : List α} {i : Nat} {a : α} (h : l[i]? = some a) : a ∈ l := by
  obtain ⟨hlt, rfl⟩ := List.getElem?_eq_some.mp h
  exact List.getElem_mem hlt

/-! ### The claims -/

/-- Claim C1: for every `CircularDetector` produced by a successful
construction and every 3D field tensor whose spatial shape equals the
grid's shape, after `update_data` the detector's `data` has one row per
time entry of the field; every row has length equal to the number of true
cells of the mask; and for every time `t` and member index `m`, entry `m`
of row `t` is the field value at time `t` at `member_coordinates[m]` — the
member-cell axis follows the same row-major `argwhere` enumeration that
built `object_coordinate_index`. -/
theorem circular_update_data_shape_and_values
    (grid : Grid) (p : Int × Int) (radius : Int) (d : CircularDetector)
    (hd : CircularDetector.construct grid p radius = .ok d)
    (field : List (List (List Int)))
    (hshape : ∀ snap ∈ field, snap.length = grid.rows ∧
      ∀ row ∈ snap, row.length = grid.cols) :
    ∃ dat : List (List Int), (d.update_data field).data = some dat ∧
      dat.length = field.length ∧
      ∀ (t : Nat) (snap : List (List Int)), field[t]? = some snap →
        ∃ row : List Int, dat[t]? = some row ∧
          row.length = countTrue d.object_idx ∧
          ∀ (m : Nat) (q : Nat × Nat), d.object_coordinate_index[m]? = some q →
            q.1 < grid.rows ∧ q.2 < grid.cols ∧
            row[m]? = ((snap[q.1]?).bind fun rw => rw[q.2]?) := by
  obtain ⟨pos, ri, h1, h2, hg, hpos, hrad, hobj, hcoords, hangles, hdata0⟩ :=
    circular_construct_ok hd
  refine ⟨field.map (fun snap => maskSelect d.object_idx snap), rfl, by simp, ?_⟩
  intro t snap ht
  obtain ⟨hsl, hsr⟩ := hshape snap (mem_of_lookup ht)
  have hmask_len : d.object_idx.length = grid.rows := by
    rw [hobj]; exact cv2_ellipse_length _ _ _ _
  have hmask_rows : ∀ row ∈ d.object_idx, row.length = grid.cols := by
    rw [hobj]; exact cv2_ellipse_row_length _ _ _ _
  have hf2 : List.Forall₂ (fun (r : List Bool) (v : List Int) => r.length = v.length)
      d.object_idx snap :=
    forall₂_length_of_shape (by rw [hmask_len, hsl]) hmask_rows hsr
  refine ⟨maskSelect d.object_idx snap, ?_, maskSelect_length _ _ hf2, ?_⟩
  · rw [List.getElem?_map, ht, Option.map_some']
  intro m q hq
  have hqmem : q ∈ argwhere d.object_idx := by rw [← hcoords]; exact mem_of_lookup hq
  obtain ⟨hb1, hb2, hb3⟩ := argwhere_mem_bounds _ q hqmem
  have hq1 : q.1 < grid.rows := hmask_len ▸ hb1
  have hmrow? : d.object_idx[q.1]? = some (d.object_idx[q.1]) :=
    List.getElem?_eq_getElem hb1
  have hq2 : q.2 < grid.cols := by
    rw [hmrow?, Option.getD_some] at hb2
    rw [← hmask_rows _ (List.getElem_mem hb1)]
    exact hb2
  have hq1s : q.1 < snap.length := by rw [hsl]; exact hq1
  have hsnap1 : snap[q.1]? = some (snap[q.1]) := List.getElem?_eq_getElem hq1s
  have hq2s : q.2 < (snap[q.1]).length := by
    rw [hsr _ (List.getElem_mem hq1s)]; exact hq2
  have hsnap2 : (snap[q.1])[q.2]? = some ((snap[q.1])[q.2]) := List.getElem?_eq_getElem hq2s
  refine ⟨hq1, hq2, ?_⟩
  rw [maskSelect_eq _ _ hf2, List.getElem?_map, ← hcoords, hq, Option.map_some', hsnap1]
  simp [hsnap2]

theorem constructA : CircularDetector.construct gridA (5, 5) 3 = .ok dA := rfl

theorem constructB : CircularDetector.construct gridB (11, 11) 5 = .ok dB := rfl

theorem constructP : PointDetector.construct gridA (2, 3) = .ok pA := rfl

theorem constructC : CircularDetector.construct gridC (22, 22) 20 = .ok dC := rfl

/-- Witness for the claim C1 theorem, at the detector `dA` and a one-step
all-ones field. -/
theorem circular_update_data_shape_and_values_witness :
    (CircularDetector.construct gridA (5, 5) 3 = .ok dA) ∧
    (∀ snap ∈ fieldOnes, snap.length = gridA.rows ∧
      ∀ row ∈ snap, row.length = gridA.cols) ∧
    (∃ dat : List (List Int), (dA.update_data fieldOnes).data = some dat ∧
      dat.length = fieldOnes.length ∧
      ∀ (t : Nat) (snap : List (List Int)), fieldOnes[t]? = some snap →
        ∃ row : List Int, dat[t]? = some row ∧
          row.length = countTrue dA.object_idx ∧
          ∀ (m : Nat) (q : Nat × Nat), dA.object_coordinate_index[m]? = some q →
            q.1 < gridA.rows ∧ q.2 < gridA.cols ∧
            row[m]? = ((snap[q.1]?).bind fun rw => rw[q.2]?)) :=
  ⟨constructA, by decide,
    circular_update_data_shape_and_values gridA (5, 5) 3 dA constructA fieldOnes (by decide)⟩

/-- The drawn-outline condition, as a proposition about the spec-side
region membership `InRegion`: the cell is in the region and one of its four
neighbours is not. -/
theorem onOutline_iff (center axes : Int × Int) (r c : Int) :
    onOutline center axes r c = true ↔
      (InRegion center.2 center.1 axes.1 axes.2 r c ∧
        ¬(InRegion center.2 center.1 axes.1 axes.2 (r + 1) c ∧
          InRegion center.2 center.1 axes.1 axes.2 (r - 1) c ∧
          InRegion center.2 center.1 axes.1 axes.2 r (c + 1) ∧
          InRegion center.2 center.1 axes.1 axes.2 r (c - 1))) := by
  simp only [onOutline, insideEllipse, InRegion, Bool.and_eq_true, Bool.or_eq_true,
    Bool.not_eq_true', decide_eq_true_eq, decide_eq_false_iff_not]
  tauto

/-- Claim C2 counterexample: for the concrete detector `dA` (resolved
center index (5, 5), resolved radius indices (3, 3)) the center cell
(5, 5) lies inside the elliptical region, yet the constructed mask is
false there — the mask is not a filled ellipse.  This cell's value is
robust to the idealization in `onOutline`: every cell painted by a
thickness-1 rendering lies within one cell of the boundary curve, which
at radii (3, 3) keeps every painted cell at distance at least 2 from the
center, so OpenCV's actual rendering leaves the center false as well. -/
theorem circular_mask_center_not_member :
    CircularDetector.construct gridA (5, 5) 3 = .ok dA ∧
    InRegion 5 5 3 3 5 5 ∧
    (((dA.object_idx[5]?).getD [])[5]?).getD false = false :=
  ⟨constructA, by norm_num [InRegion], by decide⟩

/-- Claim C2 amended: the mask built at construction is a boolean raster
of exactly the grid's shape, but it is not a filled ellipse: the source's
`cv2.ellipse` call uses the default thickness 1 and rasterizes only the
ellipse's boundary curve, leaving the strict interior false — in
particular the cell at the resolved position index itself is false
whenever both resolved radius indices are at least 2 and that cell is in
bounds.  Only these rasterizer-robust facts are asserted: the exact
boundary-staircase cell set of OpenCV's polyline rendering is not
characterized (see `onOutline`). -/
theorem circular_mask_outline_not_filled
    (grid : Grid) (p : Int × Int) (radius : Int) (d : CircularDetector)
    (pos ri : ResolvedPosition)
    (hp : grid.get_coordinate p.1 p.2 = .ok pos)
    (hr : grid.get_coordinate radius radius = .ok ri)
    (hd : CircularDetector.construct grid p radius = .ok d)
    (hrx : 2 ≤ ri.x_index) (hry : 2 ≤ ri.y_index)
    (hcx : pos.x_index < grid.rows) (hcy : pos.y_index < grid.cols) :
    d.object_idx.length = grid.rows ∧
    (∀ row ∈ d.object_idx, row.length = grid.cols) ∧
    ((((d.object_idx[pos.x_index]?).getD [])[pos.y_index]?).getD false) = false := by
  obtain ⟨pos', ri', h1, h2, hg, hpos, hrad, hobj, hcoords, hangles, hdata0⟩ :=
    circular_construct_ok hd
  have hpe : pos' = pos := by
    have := h1.symm.trans hp
    injection this
  have hre : ri' = ri := by
    have := h2.symm.trans hr
    injection this
  rw [hpe, hre] at hobj
  refine ⟨?_, ?_, ?_⟩
  · rw [hobj]; exact cv2_ellipse_length _ _ _ _
  · rw [hobj]; exact cv2_ellipse_row_length _ _ _ _
  rw [hobj, cv2_ellipse_cell _ _ _ _ pos.x_index pos.y_index hcx hcy]
  have hxz : (2 : Int) ≤ (ri.x_index : Int) := by exact_mod_cast hrx
  have hyz : (2 : Int) ≤ (ri.y_index : Int) := by exact_mod_cast hry
  rw [onOutline]
  have hx1 : (1 : Int) ≤ (ri.x_index : Int) ^ 2 := by
    nlinarith [sq_nonneg ((ri.x_index : Int) - 2)]
  have hy1 : (1 : Int) ≤ (ri.y_index : Int) ^ 2 := by
    nlinarith [sq_nonneg ((ri.y_index : Int) - 2)]
  have hxprod : (ri.x_index : Int) ^ 2 * 1 ≤ (ri.x_index : Int) ^ 2 * (ri.y_index : Int) ^ 2 :=
    mul_le_mul_of_nonneg_left hy1 (sq_nonneg _)
  have hyprod : (ri.y_index : Int) ^ 2 * 1 ≤ (ri.x_index : Int) ^ 2 * (ri.y_index : Int) ^ 2 := by
    have := mul_le_mul_of_nonneg_left hx1 (sq_nonneg ((ri.y_index : Int)))
    nlinarith [this]
  have hup : insideEllipse ((pos.y_index : Int), (pos.x_index : Int))
      ((ri.x_index : Int), (ri.y_index : Int)) ((pos.x_index : Int) + 1) (pos.y_index : Int)
      = true := by
    simp only [insideEllipse, decide_eq_true_eq]
    nlinarith [hxprod]
  have hdown : insideEllipse ((pos.y_index : Int), (pos.x_index : Int))
      ((ri.x_index : Int), (ri.y_index : Int)) ((pos.x_index : Int) - 1) (pos.y_index : Int)
      = true := by
    simp only [insideEllipse, decide_eq_true_eq]
    nlinarith [hxprod]
  have hleft : insideEllipse ((pos.y_index : Int), (pos.x_index : Int))
      ((ri.x_index : Int), (ri.y_index : Int)) (pos.x_index : Int) ((pos.y_index : Int) - 1)
      = true := by
    simp only [insideEllipse, decide_eq_true_eq]
    nlinarith [hyprod]
  have hright : insideEllipse ((pos.y_index : Int), (pos.x_index : Int))
      ((ri.x_index : Int), (ri.y_index : Int)) (pos.x_index : Int) ((pos.y_index : Int) + 1)
      = true := by
    simp only [insideEllipse, decide_eq_true_eq]
    nlinarith [hyprod]
  simp [hup, hdown, hleft, hright]

/-- Witness for the claim C2 amended theorem at the detector `dA`: the
mask has the grid's 11-row shape and its center cell (5, 5) is false. -/
theorem circular_mask_outline_not_filled_witness :
    (CircularDetector.construct gridA (5, 5) 3 = .ok dA) ∧
    dA.object_idx.length = gridA.rows ∧
    ((((dA.object_idx[5]?).getD [])[5]?).getD false) = false := by
  have h := circular_mask_outline_not_filled gridA (5, 5) 3 dA
    ⟨5, 5, 5, 5⟩ ⟨3, 3, 3, 3⟩ rfl rfl constructA (by decide) (by decide)
    (by decide) (by decide)
  exact ⟨constructA, h.1, h.2.2⟩

/-- Claim C4: `member_angles` and `member_coordinates` have equal length
and are pairwise aligned: for every interpretation `f` of `arctan2` and
every member index `m`, the `m`-th angle is `f` applied first to the
row-index offset and second to the column-index offset of the `m`-th
member coordinate from the resolved center index. -/
theorem circular_member_angles_aligned
    (grid : Grid) (p : Int × Int) (radius : Int) (d : CircularDetector)
    (hd : CircularDetector.construct grid p radius = .ok d) :
    d.angle_args.length = d.object_coordinate_index.length ∧
    ∀ (A : Type) (f : Int → Int → A) (m : Nat) (q : Nat × Nat),
      d.object_coordinate_index[m]? = some q →
      (d.angle_list f)[m]? =
        some (f ((q.1 : Int) - (d.position.x_index : Int))
          ((q.2 : Int) - (d.position.y_index : Int))) := by
  obtain ⟨pos, ri, h1, h2, hg, hpos, hrad, hobj, hcoords, hangles, hdata0⟩ :=
    circular_construct_ok hd
  constructor
  · rw [hangles, List.length_map]
  intro A f m q hq
  rw [CircularDetector.angle_list, hangles, List.map_map, List.getElem?_map, hq,
    Option.map_some']
  simp [Function.comp_def, hpos]

/-- Witness for the claim C4 theorem at the detector `dA`: its first
member coordinate is (2, 5) and the first angle argument pair is the
offset (-3, 0) from the center (5, 5), row offset first. -/
theorem circular_member_angles_aligned_witness :
    dA.angle_args.length = dA.object_coordinate_index.length ∧
    dA.object_coordinate_index[0]? = some (2, 5) ∧
    (dA.angle_list Prod.mk)[0]? = some (-3, 0) := by
  refine ⟨(circular_member_angles_aligned gridA (5, 5) 3 dA constructA).1, by decide, ?_⟩
  have h := (circular_member_angles_aligned gridA (5, 5) 3 dA constructA).2
    (Int × Int) Prod.mk 0 (2, 5) (by decide)
  rw [h]
  decide

/-- Claim C3: for every `PointDetector` from a successful construction and
every field tensor whose spatial shape equals the grid's shape (the stored
index being within bounds), `update_data` replaces `data` entirely: it has
one entry per time step of the field, entry `t` being the field value at
time `t` at the resolved (row, column) index; and the result does not
depend on the previous `data` — a full replacement, not an append. -/
theorem point_update_data_spec
    (grid : Grid) (p : Int × Int) (d : PointDetector)
    (_hd : PointDetector.construct grid p = .ok d)
    (field : List (List (List Int)))
    (hx : d.position.x_index < grid.rows) (hy : d.position.y_index < grid.cols)
    (hshape : ∀ snap ∈ field, snap.length = grid.rows ∧
      ∀ row ∈ snap, row.length = grid.cols) :
    (d.update_data field).data.length = field.length ∧
    (∀ (t : Nat) (snap : List (List Int)), field[t]? = some snap →
      (d.update_data field).data[t]? =
        ((snap[d.position.x_index]?).bind fun r => r[d.position.y_index]?)) ∧
    (∀ d' : PointDetector, d'.position = d.position →
      (d'.update_data field).data = (d.update_data field).data) := by
  refine ⟨by simp [PointDetector.update_data], ?_, ?_⟩
  · intro t snap ht
    obtain ⟨hsl, hsr⟩ := hshape snap (mem_of_lookup ht)
    have hq1s : d.position.x_index < snap.length := by rw [hsl]; exact hx
    have h1 : snap[d.position.x_index]? = some (snap[d.position.x_index]) :=
      List.getElem?_eq_getElem hq1s
    have hq2s : d.position.y_index < (snap[d.position.x_index]).length := by
      rw [hsr _ (List.getElem_mem hq1s)]; exact hy
    have h2 : (snap[d.position.x_index])[d.position.y_index]? =
        some ((snap[d.position.x_index])[d.position.y_index]) :=
      List.getElem?_eq_getElem hq2s
    simp only [PointDetector.update_data, List.getElem?_map, ht, Option.map_some', h1,
      Option.getD_some, h2, Option.some_bind]
  · intro d' hp'
    simp [PointDetector.update_data, hp']

/-- Witness for the claim C3 theorem: the point detector `pA` at resolved
index (2, 3) sampled on a one-step all-ones field. -/
theorem point_update_data_spec_witness :
    (PointDetector.construct gridA (2, 3) = .ok pA) ∧
    (pA.update_data fieldOnes).data.length = fieldOnes.length ∧
    (pA.update_data fieldOnes).data[0]? = some 1 := by
  have h := point_update_data_spec gridA (2, 3) pA constructP fieldOnes
    (by decide) (by decide) (by decide)
  refine ⟨constructP, h.1, ?_⟩
  rw [h.2.1 0 (List.replicate 11 (List.replicate 11 1)) (by decide)]
  decide

/-- Claim C5 (code bug): `plot_data` computes
`abs(self.data[slc]).sum(axis=0)`.  At the default single-time selection
`slc = -1` the indexing first drops the time axis, so `sum(axis=0)` sums
over the member-cell axis and produces ONE scalar — the sum of the
absolute values of all member cells — not the claimed M-element vector of
per-cell absolute values (which is what the polar scatter against the M
member angles requires); a time-range selection does produce the claimed
per-cell sums.  Evaluated at the detector `dA` (M = 16 member cells)
updated with one all-ones snapshot: the default selection yields the
scalar 16 while the equivalent one-step range yields the 16-vector of
ones. -/
theorem circular_plot_single_index_scalar :
    (dA.update_data fieldOnes).plot_data_values (Slc.idx (-1)) =
      .ok (.inl 16) ∧
    (dA.update_data fieldOnes).plot_data_values (Slc.slice 0 1) =
      .ok (.inr (List.replicate 16 1)) :=
  ⟨by decide, by decide⟩

/-- Claim C6 counterexample: the detector `dC` has resolved radius indices
(20, 20) — at least 5 — with the ellipse fully inside the 45 × 45 grid,
yet it has at most 200 member coordinates, while π·r_x·r_y = 400·π > 1256:
even granting a rasterization tolerance of 1000 cells — eight times the
ellipse's perimeter 2π·20 ≈ 126 — a count approximating the area would
have to exceed 256.  Only the boundary curve is rasterized, so the count
scales with the perimeter; the `≤ 200` bound is robust to the idealization
in `onOutline`: this model paints 112 cells, and OpenCV's actual
thickness-1 rendering of this ellipse (a closed polyline of 30 chords —
12° steps at these radii — each chord shorter than 5 cells and rasterizing
at most 6 cells) paints at most 180, both far below 256. -/
theorem circular_member_count_not_area :
    CircularDetector.construct gridC (22, 22) 20 = .ok dC ∧
    gridC.get_coordinate 20 20 = .ok ⟨20, 20, 20, 20⟩ ∧
    dC.object_coordinate_index.length ≤ 200 ∧
    200 + 1000 < 1256 :=
  ⟨constructC, by decide, by decide, by decide⟩

/-- Claim C6 amended: under the claim's preconditions (both resolved
radius indices at least 5, ellipse fully inside the grid), every member
coordinate lies within the anisotropic elliptical region up to one cell of
rasterization slack — shrinking each index offset by one cell toward the
center lands inside the region — with the row offset normalized by the
resolved `y`-radius index and the column offset by the resolved `x`-radius
index, the pairing `cv2.ellipse`'s argument order establishes.  The
one-cell-slack membership, unlike an exact one, is robust to the
idealization in `onOutline`: OpenCV's rendering paints nearest pixels of
chords of the convex region, which the slack absorbs.  The member count
scales with the perimeter, not with the area π·r_x·r_y (see the
counterexample). -/
theorem circular_members_within_one_cell
    (grid : Grid) (p : Int × Int) (radius : Int) (d : CircularDetector)
    (pos ri : ResolvedPosition)
    (hp : grid.get_coordinate p.1 p.2 = .ok pos)
    (hr : grid.get_coordinate radius radius = .ok ri)
    (hd : CircularDetector.construct grid p radius = .ok d)
    (_hrx : 5 ≤ ri.x_index) (_hry : 5 ≤ ri.y_index)
    (_hin : ri.y_index ≤ pos.x_index ∧ pos.x_index + ri.y_index < grid.rows ∧
      ri.x_index ≤ pos.y_index ∧ pos.y_index + ri.x_index < grid.cols) :
    ∀ q ∈ d.object_coordinate_index,
      InRegionSlack (pos.x_index : Int) (pos.y_index : Int) (ri.x_index : Int)
        (ri.y_index : Int) (q.1 : Int) (q.2 : Int) := by
  obtain ⟨pos', ri', h1, h2, hg, hpos, hrad, hobj, hcoords, hangles, hdata0⟩ :=
    circular_construct_ok hd
  have hpe : pos' = pos := by
    have := h1.symm.trans hp
    injection this
  have hre : ri' = ri := by
    have := h2.symm.trans hr
    injection this
  rw [hpe, hre] at hobj
  intro q hq
  rw [hcoords, hobj] at hq
  obtain ⟨hb1, hb2, hb3⟩ := argwhere_mem_bounds _ q hq
  have hr1 : q.1 < grid.rows := by
    rw [cv2_ellipse_length] at hb1; exact hb1
  have hmrow : q.2 < grid.cols := by
    have hrow? := List.getElem?_eq_getElem hb1
    rw [hrow?, Option.getD_some] at hb2
    rw [← cv2_ellipse_row_length grid.rows grid.cols _ _ _ (List.getElem_mem hb1)]
    exact hb2
  rw [cv2_ellipse_cell _ _ _ _ q.1 q.2 hr1 hmrow] at hb3
  have hexact : InRegion (pos.x_index : Int) (pos.y_index : Int) (ri.x_index : Int)
      (ri.y_index : Int) (q.1 : Int) (q.2 : Int) := ((onOutline_iff _ _ _ _).mp hb3).1
  unfold InRegion at hexact
  unfold InRegionSlack
  have hc2 : max (|(q.2 : Int) - (pos.y_index : Int)| - 1) 0 ^ 2 ≤
      ((q.2 : Int) - (pos.y_index : Int)) ^ 2 := by
    have h0 : (0 : Int) ≤ max (|(q.2 : Int) - (pos.y_index : Int)| - 1) 0 := le_max_right _ _
    have hle : max (|(q.2 : Int) - (pos.y_index : Int)| - 1) 0 ≤
        |(q.2 : Int) - (pos.y_index : Int)| :=
      max_le (by linarith [abs_nonneg ((q.2 : Int) - (pos.y_index : Int))]) (abs_nonneg _)
    calc max (|(q.2 : Int) - (pos.y_index : Int)| - 1) 0 ^ 2
        ≤ |(q.2 : Int) - (pos.y_index : Int)| ^ 2 := pow_le_pow_left₀ h0 hle 2
      _ = ((q.2 : Int) - (pos.y_index : Int)) ^ 2 := sq_abs _
  have hr2 : max (|(q.1 : Int) - (pos.x_index : Int)| - 1) 0 ^ 2 ≤
      ((q.1 : Int) - (pos.x_index : Int)) ^ 2 := by
    have h0 : (0 : Int) ≤ max (|(q.1 : Int) - (pos.x_index : Int)| - 1) 0 := le_max_right _ _
    have hle : max (|(q.1 : Int) - (pos.x_index : Int)| - 1) 0 ≤
        |(q.1 : Int) - (pos.x_index : Int)| :=
      max_le (by linarith [abs_nonneg ((q.1 : Int) - (pos.x_index : Int))]) (abs_nonneg _)
    calc max (|(q.1 : Int) - (pos.x_index : Int)| - 1) 0 ^ 2
        ≤ |(q.1 : Int) - (pos.x_index : Int)| ^ 2 := pow_le_pow_left₀ h0 hle 2
      _ = ((q.1 : Int) - (pos.x_index : Int)) ^ 2 := sq_abs _
  refine le_trans (add_le_add
    (mul_le_mul_of_nonneg_left hc2 (sq_nonneg ((ri.y_index : Int))))
    (mul_le_mul_of_nonneg_left hr2 (sq_nonneg ((ri.x_index : Int))))) hexact

/-- Witness for the claim C6 amended theorem at the detector `dB`
(resolved center (11, 11), resolved radii (5, 5)). -/
theorem circular_members_within_one_cell_witness :
    (CircularDetector.construct gridB (11, 11) 5 = .ok dB) ∧
    (5 ≤ (5 : Nat)) ∧
    ∀ q ∈ dB.object_coordinate_index,
      InRegionSlack ((11 : Nat) : Int) ((11 : Nat) : Int) ((5 : Nat) : Int)
        ((5 : Nat) : Int) (q.1 : Int) (q.2 : Int) :=
  ⟨constructB, by decide,
    circular_members_within_one_cell gridB (11, 11) 5 dB ⟨11, 11, 11, 11⟩ ⟨5, 5, 5, 5⟩
      rfl rfl constructB (by decide) (by decide) (by decide)⟩

/-- Claim C7: `update_data` modifies only `data`: for both detector kinds
every geometry field — grid, resolved position, radius, mask, member
coordinates and angle arguments — is identical before and after the call.
All other operations of the module are embedded as pure accessors
returning values without producing a new detector state, so no operation
other than `update_data` (and construction) modifies `data`. -/
theorem update_data_preserves_geometry :
    (∀ (d : CircularDetector) (field : List (List (List Int))),
      (d.update_data field).grid = d.grid ∧
      (d.update_data field).position = d.position ∧
      (d.update_data field).radius = d.radius ∧
      (d.update_data field).object_idx = d.object_idx ∧
      (d.update_data field).object_coordinate_index = d.object_coordinate_index ∧
      (d.update_data field).angle_args = d.angle_args) ∧
    (∀ (d : PointDetector) (field : List (List (List Int))),
      (d.update_data field).grid = d.grid ∧
      (d.update_data field).position = d.position) :=
  ⟨fun _ _ => ⟨rfl, rfl, rfl, rfl, rfl, rfl⟩, fun _ _ => ⟨rfl, rfl⟩⟩

/-- Claim C8: the constructors surface the Grid's out-of-bounds verdict
unchanged — whichever `get_coordinate` call errors, the construction
returns exactly that error and no detector value is produced; when
resolution succeeds the resolved position is stored unmodified. -/
theorem construct_propagates_grid_errors
    (grid : Grid) (p : Int × Int) (radius : Int) (e : PyError) :
    (grid.get_coordinate p.1 p.2 = .error e →
      CircularDetector.construct grid p radius = .error e ∧
      PointDetector.construct grid p = .error e) ∧
    (∀ pos : ResolvedPosition, grid.get_coordinate p.1 p.2 = .ok pos →
      grid.get_coordinate radius radius = .error e →
      CircularDetector.construct grid p radius = .error e) ∧
    (∀ pos : ResolvedPosition, grid.get_coordinate p.1 p.2 = .ok pos →
      ∃ d : PointDetector, PointDetector.construct grid p = .ok d ∧ d.position = pos) ∧
    (∀ pos ri : ResolvedPosition, grid.get_coordinate p.1 p.2 = .ok pos →
      grid.get_coordinate radius radius = .ok ri →
      ∃ d : CircularDetector, CircularDetector.construct grid p radius = .ok d ∧
        d.position = pos) := by
  refine ⟨?_, ?_, ?_, ?_⟩
  · intro h
    exact ⟨by simp [CircularDetector.construct, h], by simp [PointDetector.construct, h]⟩
  · intro pos h1 h2
    simp [CircularDetector.construct, h1, h2]
  · intro pos h1
    exact ⟨⟨grid, pos, List.replicate grid.n_steps 0⟩,
      by simp [PointDetector.construct, h1], rfl⟩
  · intro pos ri h1 h2
    cases hc : CircularDetector.construct grid p radius with
    | error f => simp [CircularDetector.construct, h1, h2] at hc
    | ok d =>
      obtain ⟨pos', ri', h1', h2', hg, hposd, -⟩ := circular_construct_ok hc
      refine ⟨d, rfl, ?_⟩
      have hpe : pos' = pos := by
        have := h1'.symm.trans h1
        injection this
      rw [hposd, hpe]

/-- Witness for the claim C8 theorem: an always-failing grid propagates
its error through both constructors, and a succeeding grid stores the
resolved position unchanged. -/
theorem construct_propagates_grid_errors_witness :
    (CircularDetector.construct gridErr (0, 0) 1 =
      .error (.outOfBounds "coordinate outside grid")) ∧
    (PointDetector.construct gridErr (0, 0) =
      .error (.outOfBounds "coordinate outside grid")) ∧
    (∃ d : PointDetector, PointDetector.construct gridA (2, 3) = .ok d ∧
      d.position = ⟨2, 3, 2, 3⟩) := by
  obtain ⟨hcirc, hpoint⟩ :=
    (construct_propagates_grid_errors gridErr (0, 0) 1
      (.outOfBounds "coordinate outside grid")).1 rfl
  exact ⟨hcirc, hpoint,
    (construct_propagates_grid_errors gridA (2, 3) 1
      (.outOfBounds "coordinate outside grid")).2.2.1 ⟨2, 3, 2, 3⟩ rfl⟩

/-- Claim C9: a `PointDetector` leaves construction with `data` an
all-zero sequence of length equal to the grid's number of time steps. -/
theorem point_data_zero_init
    (grid : Grid) (p : Int × Int) (d : PointDetector)
    (hd : PointDetector.construct grid p = .ok d) :
    d.data.length = grid.n_steps ∧ ∀ v ∈ d.data, v = 0 := by
  obtain ⟨pos, h1, hg, hpos, hdata⟩ := point_construct_ok hd
  rw [hdata]
  exact ⟨List.length_replicate _ _, fun v hv => List.eq_of_mem_replicate hv⟩

/-- Witness for the claim C9 theorem at the detector `pA` on the 4-step
grid `gridA`. -/
theorem point_data_zero_init_witness :
    (PointDetector.construct gridA (2, 3) = .ok pA) ∧
    pA.data.length = gridA.n_steps ∧ ∀ v ∈ pA.data, v = 0 :=
  ⟨constructP, point_data_zero_init gridA (2, 3) pA constructP⟩

/-- Claim C10: unlike `PointDetector`, a `CircularDetector` leaves
construction with `data` unassigned (`none` in the embedding), and any
read of `data` before the first `update_data` call — such as through
`plot_data` — fails with an attribute-access error rather than returning a
zero-initialized array. -/
theorem circular_data_unset_until_update
    (grid : Grid) (p : Int × Int) (radius : Int) (d : CircularDetector)
    (hd : CircularDetector.construct grid p radius = .ok d) :
    d.data = none ∧
    ∀ slc : Slc, d.plot_data_values slc = .error (.attributeError "data") := by
  obtain ⟨pos, ri, h1, h2, hg, hpos, hrad, hobj, hcoords, hangles, hdata0⟩ :=
    circular_construct_ok hd
  refine ⟨hdata0, fun slc => ?_⟩
  simp [CircularDetector.plot_data_values, hdata0]

/-- Witness for the claim C10 theorem at the detector `dA`. -/
theorem circular_data_unset_until_update_witness :
    (CircularDetector.construct gridA (5, 5) 3 = .ok dA) ∧
    dA.data = none ∧
    dA.plot_data_values (Slc.idx (-1)) = .error (.attributeError "data") := by
  have h := circular_data_unset_until_update gridA (5, 5) 3 dA constructA
  exact ⟨constructA, h.1, h.2 (Slc.idx (-1))⟩

end LightWave2D
